import Mathlib

/-!
Verification of the algorithmic core of `tk_tools` (file `tk_tools/groups.py`):
the `Calendar` widget's month arithmetic, week-grid construction, click
resolution and selection accessor, and the `SpreadSheetReader` widget's
window slicing and offset movement, plus the construction-time length
validation of `Grid` and `KeyValueEntry`.

The embedding is shallow: each Python method becomes a pure Lean function on
an explicit state.  Python `datetime` objects are modelled by a `Date`
structure of three naturals together with the documented year range 1..9999
of the `datetime` module (arithmetic that would leave the range raises
`OverflowError`, modelled by `Option`/`none`).  Python exceptions raised by
validation code are modelled by `Except`.
-/

namespace TkTools

/-- A Gregorian calendar date, as carried by Python `datetime.datetime`
(year, month, day; the time-of-day part is always midnight in this code and
is omitted). -/
structure Date where
  year : Nat
  month : Nat
  day : Nat
deriving DecidableEq, Repr

/-- Proleptic Gregorian leap-year rule, as used by Python's `calendar` and
`datetime` modules. -/
def isLeap (y : Nat) : Bool :=
  (y % 4 == 0 && y % 100 != 0) || y % 400 == 0

/-- Number of days of month `m` of year `y` — the second component of
`calendar.monthrange(y, m)`.  Only `m` in 1..12 occurs in the program; the
function is totalised with the 31-day default on other inputs. -/
def daysInMonth (y m : Nat) : Nat :=
  if m = 2 then (if isLeap y then 29 else 28)
  else if m = 4 ∨ m = 6 ∨ m = 9 ∨ m = 11 then 30
  else 31

/-- One-day successor of a date, i.e. `d + datetime.timedelta(days=1)`.
Python `datetime` supports years 1..9999 and raises `OverflowError` past
`datetime.max`; that error is modelled by `none`. -/
def nextDay (d : Date) : Option Date :=
  if d.day < daysInMonth d.year d.month then some ⟨d.year, d.month, d.day + 1⟩
  else if d.month < 12 then some ⟨d.year, d.month + 1, 1⟩
  else if d.year < 9999 then some ⟨d.year + 1, 1, 1⟩
  else none

/-- One-day predecessor of a date, i.e. `d - datetime.timedelta(days=1)`;
`none` models the `OverflowError` raised below `datetime.min` (1-01-01). -/
def prevDay (d : Date) : Option Date :=
  if 1 < d.day then some ⟨d.year, d.month, d.day - 1⟩
  else if 1 < d.month then some ⟨d.year, d.month - 1, daysInMonth d.year (d.month - 1)⟩
  else if 1 < d.year then some ⟨d.year - 1, 12, 31⟩
  else none

/-- Date plus `n` days: `d + datetime.timedelta(days=n)`. -/
def addDays : Nat → Date → Option Date
  | 0, d => some d
  | n + 1, d => (nextDay d).bind (addDays n)

/-- The `Calendar` widget state relevant to the claims: `date` embeds
`self._date` (always the first day of the displayed month) and `sel` embeds
`self._selection`.  The source stores `self._selection` as a triple
`(text, item, column)` whose first component is the clicked day formatted
with `'%02d'`; the accessor reads it back with `int(...)`, a lossless round
trip, so `sel` stores the day number itself. -/
structure CalSt where
  date : Date
  sel : Option Nat
deriving DecidableEq, Repr

/-- Validating constructor `datetime.datetime(y, m, d)`: `none` models the
`ValueError` raised on an out-of-range field. -/
def mk_datetime (y m d : Nat) : Option Date :=
  if 1 ≤ y ∧ y ≤ 9999 ∧ 1 ≤ m ∧ m ≤ 12 ∧ 1 ≤ d ∧ d ≤ daysInMonth y m
  then some ⟨y, m, d⟩ else none

/-- `Calendar.__init__` state initialisation (groups.py:599-600):
`self._date = self.datetime(year, month, 1)`, `self._selection = None`.
`none` models the `ValueError` raised by the `datetime` constructor on an
invalid (year, month). -/
def init_cal (y m : Nat) : Option CalSt :=
  (mk_datetime y m 1).map fun d => ⟨d, none⟩

/-- `Calendar._next_month` (groups.py:792-802): add
`calendar.monthrange(year, month)[1] + 1` days to `self._date` (the first of
the displayed month), then reset to the first of the resulting month.
`none` models the `OverflowError` propagating out of the date addition, in
which case `self._date` is left unchanged.  `self._selection` is not
touched (only the selection canvas is hidden). -/
def next_month (st : CalSt) : Option CalSt :=
  (addDays (daysInMonth st.date.year st.date.month + 1) st.date).map
    fun d => { st with date := ⟨d.year, d.month, 1⟩ }

/-- `Calendar._prev_month` (groups.py:782-790): subtract one day from
`self._date`, then reset to the first of the resulting month.  `none`
models `OverflowError`; `self._selection` is not touched. -/
def prev_month (st : CalSt) : Option CalSt :=
  (prevDay st.date).map fun d => { st with date := ⟨d.year, d.month, 1⟩ }

/-- Displayed (year, month) after `_next_month` from a given displayed
(year, month) — the projection of `next_month` used by the month-arithmetic
claims. -/
def next_month_ym (y m : Nat) : Option (Nat × Nat) :=
  (next_month ⟨⟨y, m, 1⟩, none⟩).map fun st => (st.date.year, st.date.month)

/-- Displayed (year, month) after `_prev_month` from a given displayed
(year, month). -/
def prev_month_ym (y m : Nat) : Option (Nat × Nat) :=
  (prev_month ⟨⟨y, m, 1⟩, none⟩).map fun st => (st.date.year, st.date.month)

/-- Days in all years before year `y` of the proleptic Gregorian calendar
(so `daysBeforeYear y + 1` is the ordinal of 1 January of year `y`,
matching `datetime.date(y, 1, 1).toordinal()`). -/
def daysBeforeYear (y : Nat) : Nat :=
  365 * (y - 1) + (y - 1) / 4 - (y - 1) / 100 + (y - 1) / 400

/-- Days in the months of year `y` strictly before month `m`. -/
def daysBeforeMonth (y m : Nat) : Nat :=
  ((List.range (m - 1)).map fun k => daysInMonth y (k + 1)).sum

/-- Proleptic Gregorian ordinal of a date (1-01-01 has ordinal 1), as
`datetime.date.toordinal()`. -/
def toOrd (d : Date) : Nat :=
  daysBeforeYear d.year + daysBeforeMonth d.year d.month + d.day

/-- Weekday of a date with Monday = 0 .. Sunday = 6, as
`calendar.weekday(y, m, d)`; day 1-01-01 (ordinal 1) is a Monday. -/
def weekdayOf (y m d : Nat) : Nat :=
  (toOrd ⟨y, m, d⟩ + 6) % 7

/-- Column of day 1 of the month in a week row that starts on Sunday: the
number of leading blank cells of `calendar.TextCalendar(calendar.SUNDAY)`,
namely `(weekday(y, m, 1) - SUNDAY) % 7` with `SUNDAY = 6`. -/
def gapOf (y m : Nat) : Nat :=
  (weekdayOf y m 1 + 1) % 7

/-- Week rows of a month with `g` leading blank cells and `n` days: each row
has 7 cells, a cell holds its day number or 0 for a cell outside the month.
This is `calendar.Calendar.monthdayscalendar` expressed by its cell
formula: cell index `i = w*7 + c` (row-major) holds day `i - g + 1` when
`g ≤ i < g + n`, else 0, over `⌈(g+n)/7⌉` week rows. -/
def monthWeeks (g n : Nat) : List (List Nat) :=
  (List.range ((g + n + 6) / 7)).map fun w =>
    (List.range 7).map fun c =>
      if g ≤ w * 7 + c ∧ w * 7 + c < g + n then w * 7 + c + 1 - g else 0

/-- `self._cal.monthdayscalendar(year, month)` for the calendar created in
`Calendar.__init__` with `fwday = calendar.SUNDAY` (groups.py:592,605,719). -/
def monthdayscalendar (y m : Nat) : List (List Nat) :=
  monthWeeks (gapOf y m) (daysInMonth y m)

/-- Number of week rows of `monthWeeks g n` / `monthdayscalendar`. -/
def numWeeksOf (y m : Nat) : Nat :=
  (gapOf y m + daysInMonth y m + 6) / 7

/-- The day numbers held by the six treeview rows written by
`Calendar._build_calendar` (groups.py:720-723): row `indx` holds week
`cal[indx]` when `indx < len(cal)` and the empty list `[]` otherwise
(`week = cal[indx] if indx < len(cal) else []`). -/
def grid6 (g n : Nat) : List (List Nat) :=
  (List.range 6).map fun i => (monthWeeks g n).getD i []

/-- The six rows of day numbers displayed for (year, month). -/
def cal6 (y m : Nat) : List (List Nat) :=
  grid6 (gapOf y m) (daysInMonth y m)

/-- Cell formatting of `_build_calendar`:
`('%02d' % day) if day else ''` (groups.py:722). -/
def fmtDay (d : Nat) : String :=
  if d = 0 then "" else (if d < 10 then "0" ++ toString d else toString d)

/-- `Calendar._build_calendar` (groups.py:711-723): the values written into
the six treeview item rows — six rows of zero-padded day strings, a blank
string for a cell outside the month, and the empty list for a trailing row
beyond the month's weeks. -/
def build_calendar (y m : Nat) : List (List String) :=
  (cal6 y m).map fun row => row.map fmtDay

/-- Day number held by the displayed grid at treeview row `r` and column
`#c` (columns are numbered from 1 as in Tk), 0 when the cell is blank or
out of range. -/
def cellAt (y m r c : Nat) : Nat :=
  ((cal6 y m).getD r []).getD (c - 1) 0

/-- `Calendar._pressed` (groups.py:741-771), at the granularity of the
already-resolved hit test: `item` is the clicked treeview row as an index
into `self._items` (`none` when the click hit the header row or no row, so
that `item in self._items` is false; an index `≥ 6` likewise is not one of
the six `_items`), `col` is the Tk column number `c` of `identify_column`'s
`'#c'` (`none` when `identify_column` returned the empty string), and
`bboxOk` tells whether `widget.bbox` returned a box.  The row's stored
values are the day numbers of `cal6` (the `'%02d'` strings round-trip
through Tcl as the integers the source formats back with `'%02d' % text`;
a blank cell is falsy like 0).  Each guard that makes the source return
early leaves the state unchanged; otherwise the clicked day is stored in
`self._selection`. -/
def pressed (st : CalSt) (item : Option Nat) (col : Option Nat) (bboxOk : Bool) : CalSt :=
  match col, item with
  | some c, some r =>
    if 6 ≤ r then st
    else if ((cal6 st.date.year st.date.month).getD r []).length = 0 then st
    else if ((cal6 st.date.year st.date.month).getD r []).getD (c - 1) 0 = 0 then st
    else if bboxOk = false then st
    else { st with sel := some (((cal6 st.date.year st.date.month).getD r []).getD (c - 1) 0) }
  | _, _ => st

/-- `Calendar.selection` property (groups.py:804-813): `Except.ok none`
when no selection is stored, otherwise
`datetime(self._date.year, self._date.month, int(self._selection[0]))`;
`Except.error ()` models the `ValueError` the `datetime` constructor
raises when the stored day does not exist in the displayed month. -/
def selection (st : CalSt) : Except Unit (Option Date) :=
  match st.sel with
  | none => .ok none
  | some d =>
    match mk_datetime st.date.year st.date.month d with
    | some dt => .ok (some dt)
    | none => .error ()

/-- Loop body of `SpreadSheetReader.read_xl` (groups.py:507-514): walk the
sheet's rows with their enumeration index `i`; once `i ≥ row_number`, slice
the row (`row[column_number : column_number + cols_to_display]`) and add
it; after handling row `i`, stop when `i ≥ rows_to_display + row_number`.
A row is a list of already-extracted cell values. -/
def read_xl_aux (row_number column_number rows_to_display cols_to_display : Nat) :
    Nat → List (List α) → List (List α)
  | _, [] => []
  | i, r :: rest =>
    if row_number ≤ i then
      let data := (r.drop column_number).take cols_to_display
      if rows_to_display + row_number ≤ i then [data]
      else data :: read_xl_aux row_number column_number rows_to_display cols_to_display (i + 1) rest
    else
      if rows_to_display + row_number ≤ i then []
      else read_xl_aux row_number column_number rows_to_display cols_to_display (i + 1) rest

/-- `SpreadSheetReader.read_xl` (groups.py:498-514) as a function of the
sheet's rows: the rows added to the entry grid. -/
def read_xl (table : List (List α))
    (row_number column_number rows_to_display cols_to_display : Nat) : List (List α) :=
  read_xl_aux row_number column_number rows_to_display cols_to_display 0 table

/-- `SpreadSheetReader.move_right` (groups.py:516-524): unconditionally add
`cols_to_display` (page) or 1 to the column offset; `some` is the new
`self.current_position` (the grid is always cleared and re-read). -/
def move_right (page : Bool) (cols_to_display : Nat) (pos : Nat × Nat) : Option (Nat × Nat) :=
  if page then some (pos.1, pos.2 + cols_to_display)
  else some (pos.1, pos.2 + 1)

/-- `SpreadSheetReader.move_left` (groups.py:526-541): `none` models the
early `return` (the move is refused: offset unchanged and the grid is not
re-read) when a single move starts at column offset 0 or a page move
starts at a column offset below `cols_to_display`; otherwise the offset is
decremented by 1 or by `cols_to_display`. -/
def move_left (page : Bool) (cols_to_display : Nat) (pos : Nat × Nat) : Option (Nat × Nat) :=
  if ¬page ∧ pos.2 = 0 then none
  else if page ∧ pos.2 < cols_to_display then none
  else if page then some (pos.1, pos.2 - cols_to_display)
  else some (pos.1, pos.2 - 1)

/-- `SpreadSheetReader.move_down` (groups.py:543-551): unconditionally add
`rows_to_display` (page) or 1 to the row offset. -/
def move_down (page : Bool) (rows_to_display : Nat) (pos : Nat × Nat) : Option (Nat × Nat) :=
  if page then some (pos.1 + rows_to_display, pos.2)
  else some (pos.1 + 1, pos.2)

/-- `SpreadSheetReader.move_up` (groups.py:553-568): `none` models the early
`return` when a single move starts at row offset 0 or a page move starts at
a row offset below `rows_to_display`. -/
def move_up (page : Bool) (rows_to_display : Nat) (pos : Nat × Nat) : Option (Nat × Nat) :=
  if ¬page ∧ pos.1 = 0 then none
  else if page ∧ pos.1 < rows_to_display then none
  else if page then some (pos.1 - rows_to_display, pos.2)
  else some (pos.1 - 1, pos.2)

/-- Python truthiness of an optional list argument defaulting to `None`:
false for `None` and for an empty list. -/
def truthy : Option (List α) → Bool
  | none => false
  | some xs => !xs.isEmpty

/-- The validation of `Grid.__init__` (groups.py:32-34): `if headers:` then
`raise ValueError` when `len(headers) != num_of_columns`.  `Except.error`
models the raised `ValueError`. -/
def grid_init_check (num_of_columns : Nat) (headers : Option (List String)) : Except Unit Unit :=
  if truthy headers ∧ (headers.getD []).length ≠ num_of_columns then .error ()
  else .ok ()

/-- The validation of `KeyValueEntry.__init__` (groups.py:292-303): each of
`defaults`, `unit_labels`, `enables` is length-checked against `keys` only
when it is truthy; the message of the first check repeats the
`unit_labels` wording of the source. -/
def kv_init_check (keys : List String) (defaults unit_labels : Option (List String))
    (enables : Option (List Bool)) : Except String Unit :=
  if truthy defaults ∧ keys.length ≠ (defaults.getD []).length then
    .error "unit_labels length does not match keys length"
  else if truthy unit_labels ∧ keys.length ≠ (unit_labels.getD []).length then
    .error "unit_labels length does not match keys length"
  else if truthy enables ∧ keys.length ≠ (enables.getD []).length then
    .error "enables length does not match keys length"
  else .ok ()

/-! ## Helper lemmas -/

theorem daysInMonth_ge (y m : Nat) : 28 ≤ daysInMonth y m := by
  unfold daysInMonth
  split_ifs <;> omega

theorem daysInMonth_le (y m : Nat) : daysInMonth y m ≤ 31 := by
  unfold daysInMonth
  split_ifs <;> omega

theorem addDays_succ (n : Nat) (d : Date) :
    addDays (n + 1) d = (nextDay d).bind (addDays n) := rfl

theorem addDays_add (a b : Nat) (d : Date) :
    addDays (a + b) d = (addDays a d).bind (addDays b) := by
  induction a generalizing d with
  | zero => simp [addDays]
  | succ k ih =>
    rw [show k + 1 + b = (k + b) + 1 by omega, addDays_succ, addDays_succ]
    cases nextDay d with
    | none => simp
    | some e => simp [ih]

theorem addDays_in_month (n : Nat) : ∀ y m d : Nat, 1 ≤ d → d + n ≤ daysInMonth y m →
    addDays n ⟨y, m, d⟩ = some ⟨y, m, d + n⟩ := by
  induction n with
  | zero => intro y m d _ _; simp [addDays]
  | succ k ih =>
    intro y m d h1 h2
    have hd : d < daysInMonth y m := by omega
    rw [addDays_succ]
    have hnext : nextDay ⟨y, m, d⟩ = some ⟨y, m, d + 1⟩ := by
      unfold nextDay
      rw [if_pos hd]
    rw [hnext, Option.some_bind, ih y m (d + 1) (by omega) (by omega)]
    have : d + 1 + k = d + (k + 1) := by omega
    rw [this]

theorem addDays_two_from_last (y m : Nat) :
    addDays 2 ⟨y, m, daysInMonth y m⟩ =
      if m < 12 then some ⟨y, m + 1, 2⟩
      else if y < 9999 then some ⟨y + 1, 1, 2⟩
      else none := by
  have hlt : ¬ daysInMonth y m < daysInMonth y m := lt_irrefl _
  by_cases hm : m < 12
  · have h2 : 1 < daysInMonth y (m + 1) :=
      lt_of_lt_of_le (by norm_num) (daysInMonth_ge y (m + 1))
    simp [show (2 : Nat) = 1 + 1 from rfl, addDays_succ, addDays, nextDay, hlt, hm, h2]
  · by_cases hy : y < 9999
    · have h2 : 1 < daysInMonth (y + 1) 1 :=
        lt_of_lt_of_le (by norm_num) (daysInMonth_ge (y + 1) 1)
      simp [show (2 : Nat) = 1 + 1 from rfl, addDays_succ, addDays, nextDay, hlt, hm, hy, h2]
    · simp [show (2 : Nat) = 1 + 1 from rfl, addDays_succ, addDays, nextDay, hlt, hm, hy]

theorem next_month_spec (y m : Nat) (sel : Option Nat) :
    next_month ⟨⟨y, m, 1⟩, sel⟩ =
      if m < 12 then some ⟨⟨y, m + 1, 1⟩, sel⟩
      else if y < 9999 then some ⟨⟨y + 1, 1, 1⟩, sel⟩
      else none := by
  have h28 := daysInMonth_ge y m
  unfold next_month
  have e1 : daysInMonth y m + 1 = (daysInMonth y m - 1) + 2 := by omega
  rw [show (⟨⟨y, m, 1⟩, sel⟩ : CalSt).date = ⟨y, m, 1⟩ from rfl]
  rw [show daysInMonth (Date.mk y m 1).year (Date.mk y m 1).month = daysInMonth y m from rfl]
  rw [e1, addDays_add, addDays_in_month (daysInMonth y m - 1) y m 1 (by omega) (by omega)]
  rw [show 1 + (daysInMonth y m - 1) = daysInMonth y m by omega]
  rw [Option.some_bind, addDays_two_from_last y m]
  split_ifs <;> rfl

theorem prev_month_spec (y m : Nat) (sel : Option Nat) :
    prev_month ⟨⟨y, m, 1⟩, sel⟩ =
      if 1 < m then some ⟨⟨y, m - 1, 1⟩, sel⟩
      else if 1 < y then some ⟨⟨y - 1, 12, 1⟩, sel⟩
      else none := by
  unfold prev_month prevDay
  have h1 : ¬ (1 : Nat) < 1 := by omega
  simp only [show (⟨⟨y, m, 1⟩, sel⟩ : CalSt).date = ⟨y, m, 1⟩ from rfl]
  rw [if_neg h1]
  split_ifs <;> rfl

theorem monthWeeks_length (g n : Nat) : (monthWeeks g n).length = (g + n + 6) / 7 := by
  simp [monthWeeks]

theorem grid6_getD (g n r : Nat) (hr : r < 6) :
    (grid6 g n).getD r [] = (monthWeeks g n).getD r [] := by
  unfold grid6
  rw [List.getD_eq_getElem?_getD, List.getElem?_map]
  rw [List.getElem?_range hr]
  rfl

theorem grid6_getD_of_ge (g n r : Nat) (hge : (g + n + 6) / 7 ≤ r) :
    (grid6 g n).getD r [] = [] := by
  by_cases hr : r < 6
  · rw [grid6_getD g n r hr, List.getD_eq_getElem?_getD, List.getElem?_eq_none]
    · rfl
    · rw [monthWeeks_length]; exact hge
  · rw [List.getD_eq_getElem?_getD, List.getElem?_eq_none]
    · rfl
    · unfold grid6
      simp only [List.length_map, List.length_range]
      omega

/-- The grid shape and content facts needed by the build claims, proved by
exhausting the only data the grid depends on: the leading gap `g < 7` and
the day count `28 + k` with `k < 4` (every month has 28..31 days). -/
theorem gridProps_core : ∀ g, g < 7 → ∀ k, k < 4 →
    ((grid6 g (28 + k)).map fun row => row.map fmtDay).length = 6 ∧
    (∀ i, i < 6 →
      (i < (g + (28 + k) + 6) / 7 ∧
        (((grid6 g (28 + k)).map fun row => row.map fmtDay).getD i []).length = 7) ∨
      ((g + (28 + k) + 6) / 7 ≤ i ∧
        ((grid6 g (28 + k)).map fun row => row.map fmtDay).getD i [] = [])) ∧
    ((grid6 g (28 + k)).map fun row => row.map fmtDay).flatten.filter (fun s => s != "")
      = (List.range' 1 (28 + k)).map fmtDay ∧
    (grid6 g (28 + k)).flatten.filter (fun d => d != 0) = List.range' 1 (28 + k) := by
  decide

/-! ## Claim theorems -/

/-- C3, counterexample.  The round-trip law fails at the displayed month
(9999, 12), the last month representable by Python `datetime`: there
`_next_month` raises `OverflowError` (modelled by `none`) while leaving the
displayed month unchanged, and `_prev_month` from the unchanged (9999, 12)
yields (9999, 11), not (9999, 12). -/
theorem c3_counterexample :
    next_month_ym 9999 12 = none ∧ prev_month_ym 9999 12 = some (9999, 11) :=
  ⟨rfl, rfl⟩

/-- C3, amended.  For every starting displayed (year, month) with year in
1..9999 and month in 1..12 other than (9999, 12), `_next_month` followed by
`_prev_month` returns the engine to exactly the original (year, month). -/
theorem c3_round_trip (y m : Nat) (hy1 : 1 ≤ y) (hy2 : y ≤ 9999)
    (hm1 : 1 ≤ m) (hm2 : m ≤ 12) (hne : ¬(y = 9999 ∧ m = 12)) :
    (next_month_ym y m).bind (fun p => prev_month_ym p.1 p.2) = some (y, m) := by
  unfold next_month_ym prev_month_ym
  rw [next_month_spec y m none]
  by_cases hm : m < 12
  · rw [if_pos hm]
    simp only [Option.map_some', Option.some_bind]
    rw [prev_month_spec y (m + 1) none, if_pos (by omega : 1 < m + 1)]
    simp only [Option.map_some']
    rw [show m + 1 - 1 = m by omega]
  · have hm12 : m = 12 := by omega
    have hy : y < 9999 := by
      rcases Nat.lt_or_ge y 9999 with h | h
      · exact h
      · exact absurd ⟨by omega, hm12⟩ hne
    rw [if_neg hm, if_pos hy]
    simp only [Option.map_some', Option.some_bind]
    rw [prev_month_spec (y + 1) 1 none, if_neg (by omega : ¬ (1:Nat) < 1),
      if_pos (by omega : 1 < y + 1)]
    simp only [Option.map_some']
    rw [show y + 1 - 1 = y by omega, hm12]

/-- C3, witness: the round trip at the concrete year-rollover month
(2023, 12). -/
theorem c3_round_trip_witness :
    (next_month_ym 2023 12).bind (fun p => prev_month_ym p.1 p.2) = some (2023, 12) :=
  c3_round_trip 2023 12 (by decide) (by decide) (by decide) (by decide) (by decide)

/-- C4, counterexample.  The rollover rule fails at the bounds of Python
`datetime`: `_next_month` at (9999, 12) raises `OverflowError` (modelled
`none`) instead of yielding (10000, 1), and `_prev_month` at (1, 1) raises
instead of yielding (0, 12). -/
theorem c4_counterexample :
    next_month_ym 9999 12 ≠ some (10000, 1) ∧ next_month_ym 9999 12 = none ∧
    prev_month_ym 1 1 = none :=
  ⟨by decide, rfl, rfl⟩

/-- C4, amended.  For every displayed (year, month) with year in 1..9999 and
month in 1..12: `_next_month` from (year, 12) yields (year+1, 1) provided
year < 9999 (at (9999, 12) it raises, see the counterexample), and from any
month < 12 yields (year, month+1); `_prev_month` from (year, 1) yields
(year-1, 12) provided year > 1 (at (1, 1) it raises), and from any month > 1
yields (year, month-1). -/
theorem c4_month_navigation (y m : Nat) (hy1 : 1 ≤ y) (hy2 : y ≤ 9999)
    (hm1 : 1 ≤ m) (hm2 : m ≤ 12) :
    (m = 12 → y < 9999 → next_month_ym y m = some (y + 1, 1)) ∧
    (m < 12 → next_month_ym y m = some (y, m + 1)) ∧
    (m = 1 → 1 < y → prev_month_ym y m = some (y - 1, 12)) ∧
    (1 < m → prev_month_ym y m = some (y, m - 1)) := by
  refine ⟨?_, ?_, ?_, ?_⟩
  · intro h12 hy
    unfold next_month_ym
    rw [next_month_spec y m none, if_neg (by omega : ¬ m < 12), if_pos hy]
    rfl
  · intro hm
    unfold next_month_ym
    rw [next_month_spec y m none, if_pos hm]
    rfl
  · intro h1 hy
    unfold prev_month_ym
    rw [prev_month_spec y m none, if_neg (by omega : ¬ 1 < m), if_pos hy]
    rfl
  · intro hm
    unfold prev_month_ym
    rw [prev_month_spec y m none, if_pos hm]
    rfl

/-- C4, witness: the spec's concrete year-rollover instances,
(2023, 12) forward and (2024, 1) backward. -/
theorem c4_month_navigation_witness :
    next_month_ym 2023 12 = some (2024, 1) ∧ prev_month_ym 2024 1 = some (2023, 12) :=
  ⟨(c4_month_navigation 2023 12 (by decide) (by decide) (by decide) (by decide)).1
      rfl (by decide),
   (c4_month_navigation 2024 1 (by decide) (by decide) (by decide) (by decide)).2.2.1
      rfl (by decide)⟩

/-- C5, confirmed.  A single (non-page) move up or left from a zero
row/column offset is refused (the early `return`: offset unchanged, grid
not re-read, modelled by `none`), and a page move up or left is refused
exactly when the current row/column offset is strictly less than the full
page size — in particular a page-up from row offset 5 with
`rows_to_display = 20` is refused because 5 - 20 would be negative. -/
theorem c5_move_up_left_clamping (rows cols rp cp : Nat) :
    move_up false rows (0, cp) = none ∧
    move_left false cols (rp, 0) = none ∧
    (move_up true rows (rp, cp) = none ↔ rp < rows) ∧
    (move_left true cols (rp, cp) = none ↔ cp < cols) ∧
    move_up true 20 (5, 0) = none := by
  refine ⟨rfl, rfl, ?_, ?_, rfl⟩
  · unfold move_up
    split_ifs with h1 h2 h3
    · simp at h1
    · simp only [true_iff]
      exact h2.2
    · simp only [true_and] at h2
      simp [h2]
    · simp at h3
  · unfold move_left
    split_ifs with h1 h2 h3
    · simp at h1
    · simp only [true_iff]
      exact h2.2
    · simp only [true_and] at h2
      simp [h2]
    · simp at h3

/-- C6, confirmed.  A move down or right is unconditionally applied: a
single move adds 1 to the row/column offset, a page move adds the full page
size (`rows_to_display` for down, `cols_to_display` for right); there is no
upper clamp against the table size. -/
theorem c6_move_down_right (rows cols rp cp : Nat) :
    move_down false rows (rp, cp) = some (rp + 1, cp) ∧
    move_down true rows (rp, cp) = some (rp + rows, cp) ∧
    move_right false cols (rp, cp) = some (rp, cp + 1) ∧
    move_right true cols (rp, cp) = some (rp, cp + cols) :=
  ⟨rfl, rfl, rfl, rfl⟩

/-- C2, code bug.  `read_xl` adds the rows with enumeration index
`row_number .. row_number + rows_to_display` inclusive, because the `break`
test `i >= rows_to_display + row_number` runs only after the row at index
`i` has already been added: on a 5-row sheet with offset (0, 0) and
`rows_to_display = 2` it returns 3 rows, one more than the page size the
parameter names (with the default 20 it returns 21 rows).  The remaining
parts of the claim do hold (the third conjunct: near the edge only the
remaining rows are returned, none fabricated; the column slice takes at
most `cols_to_display` columns from `column_number`). -/
theorem c2_read_xl_off_by_one :
    read_xl ([[1], [2], [3], [4], [5]] : List (List Nat)) 0 0 2 8 = [[1], [2], [3]] ∧
    (read_xl ([[1], [2], [3], [4], [5]] : List (List Nat)) 0 0 2 8).length = 3 ∧
    read_xl ([[1], [2], [3], [4], [5]] : List (List Nat)) 3 0 2 8 = [[4], [5]] ∧
    read_xl ([[1, 2, 3], [4, 5, 6]] : List (List Nat)) 0 1 5 2 = [[2, 3], [5, 6]] :=
  ⟨rfl, rfl, rfl, rfl⟩

/-- C10, confirmed.  A reachable state on which the `selection` accessor
raises `ValueError` instead of returning an optional date: construct the
engine at January 2023 (`init_cal`), click the cell of day 31 (treeview row
4, Tk column `#3`), then navigate to February 2023 with `_next_month`; the
stored day 31 survives the navigation and
`datetime(2023, 2, 31)` raises (modelled `Except.error ()`). -/
theorem c10_selection_raises :
    init_cal 2023 1 = some ⟨⟨2023, 1, 1⟩, none⟩ ∧
    (pressed ⟨⟨2023, 1, 1⟩, none⟩ (some 4) (some 3) true).sel = some 31 ∧
    (next_month (pressed ⟨⟨2023, 1, 1⟩, none⟩ (some 4) (some 3) true)).map selection
      = some (.error ()) :=
  ⟨rfl, rfl, rfl⟩

/-- C1, counterexample.  The stored selection is not cleared when the
displayed month changes: constructing the engine at January 2023, clicking
day 15 (treeview row 2, Tk column `#1`) and then calling `_next_month`
leaves the click stored, and the `selection` accessor returns the date
2023-02-15 — combining the new displayed month with the stored day — rather
than returning nothing as the claim states. -/
theorem c1_counterexample :
    init_cal 2023 1 = some ⟨⟨2023, 1, 1⟩, none⟩ ∧
    (next_month (pressed ⟨⟨2023, 1, 1⟩, none⟩ (some 2) (some 1) true)).map selection
      = some (.ok (some ⟨2023, 2, 15⟩)) ∧
    (next_month (pressed ⟨⟨2023, 1, 1⟩, none⟩ (some 2) (some 1) true)).map selection
      ≠ some (.ok none) := by
  refine ⟨rfl, rfl, ?_⟩
  intro h
  rw [show (next_month (pressed ⟨⟨2023, 1, 1⟩, none⟩ (some 2) (some 1) true)).map selection
        = some (.ok (some ⟨2023, 2, 15⟩)) from rfl] at h
  simp at h

/-- C9, counterexample.  Construction does not raise on every mismatched
supplied list: `Grid.__init__` with `num_of_columns = 3` and an explicitly
supplied empty `headers` list (length 0 ≠ 3) skips the validation entirely,
because `if headers:` is false for an empty Python list. -/
theorem c9_counterexample :
    grid_init_check 3 (some ([] : List String)) = .ok () ∧
    ([] : List String).length ≠ 3 :=
  ⟨rfl, by decide⟩

/-- C7, counterexample.  `_build_calendar` does not give every one of the
six rows 7 columns: February 2023 spans 5 week rows (it starts on a
Wednesday under the Sunday-first layout), so the sixth treeview row is
written the empty value list `[]` — zero cells, not 7. -/
theorem c7_counterexample :
    (build_calendar 2023 2).length = 6 ∧ (build_calendar 2023 2).getD 5 ["x"] = [] :=
  ⟨rfl, rfl⟩

/-- C7, amended.  For every (year, month) in 1..9999 × 1..12,
`_build_calendar` produces exactly 6 rows; each row before
`numWeeksOf year month` (the weeks the month spans) has 7 columns, while
each trailing row is the empty list (rendered as a blank treeview row);
the non-empty cells, read in row-major order, are exactly the zero-padded
day strings 1, 2, ..., daysInMonth year month — so their count is the
number of days of the month under the proleptic Gregorian calendar and
their values start at 1 and are strictly increasing (the last conjunct
states the same fact on the underlying day numbers). -/
theorem c7_build_calendar (y m : Nat) (hy1 : 1 ≤ y) (hy2 : y ≤ 9999)
    (hm1 : 1 ≤ m) (hm2 : m ≤ 12) :
    (build_calendar y m).length = 6 ∧
    (∀ i, i < 6 →
      (i < numWeeksOf y m ∧ ((build_calendar y m).getD i []).length = 7) ∨
      (numWeeksOf y m ≤ i ∧ (build_calendar y m).getD i [] = [])) ∧
    (build_calendar y m).flatten.filter (fun s => s != "")
      = (List.range' 1 (daysInMonth y m)).map fmtDay ∧
    (cal6 y m).flatten.filter (fun d => d != 0) = List.range' 1 (daysInMonth y m) := by
  have hg : gapOf y m < 7 := Nat.mod_lt _ (by norm_num)
  have h28 := daysInMonth_ge y m
  have h31 := daysInMonth_le y m
  have core := gridProps_core (gapOf y m) hg (daysInMonth y m - 28) (by omega)
  rw [show 28 + (daysInMonth y m - 28) = daysInMonth y m by omega] at core
  exact core

/-- C7, witness: the leap-year instances — February 2024 yields 29
non-empty cells, February 2023 yields 28. -/
theorem c7_build_calendar_witness :
    ((build_calendar 2024 2).flatten.filter (fun s => s != "")).length = 29 ∧
    ((build_calendar 2023 2).flatten.filter (fun s => s != "")).length = 28 := by
  have h1 := (c7_build_calendar 2024 2 (by decide) (by decide) (by decide) (by decide)).2.2.1
  have h2 := (c7_build_calendar 2023 2 (by decide) (by decide) (by decide) (by decide)).2.2.1
  rw [h1, h2]
  decide

/-- C8, confirmed.  A click whose hit test lands outside the six item rows
(`item = none` or an index past them), outside the columns (`col = none`),
on a row at or beyond the populated weeks, or on an empty cell, is not an
error: `_pressed` returns early, leaving the whole state — in particular
the stored selection — unchanged. -/
theorem c8_pressed_no_selection (st : CalSt) (item col : Option Nat) (b : Bool)
    (h : item = none ∨ col = none ∨
      (∃ r, item = some r ∧ numWeeksOf st.date.year st.date.month ≤ r) ∨
      (∃ r c, item = some r ∧ col = some c ∧
        cellAt st.date.year st.date.month r c = 0)) :
    pressed st item col b = st := by
  rcases h with h | h | ⟨r, hi, hr⟩ | ⟨r, c, hi, hc, hcell⟩
  · subst h
    cases col <;> rfl
  · subst h
    cases item <;> rfl
  · subst hi
    cases col with
    | none => rfl
    | some c =>
      simp only [pressed]
      by_cases h6 : 6 ≤ r
      · rw [if_pos h6]
      · rw [if_neg h6]
        have hvals : (cal6 st.date.year st.date.month).getD r [] = [] :=
          grid6_getD_of_ge _ _ _ hr
        rw [hvals]
        simp
  · subst hi
    subst hc
    simp only [pressed]
    by_cases h6 : 6 ≤ r
    · rw [if_pos h6]
    · rw [if_neg h6]
      by_cases hlen : ((cal6 st.date.year st.date.month).getD r []).length = 0
      · rw [if_pos hlen]
      · rw [if_neg hlen]
        unfold cellAt at hcell
        rw [if_pos hcell]

/-- C8, witness: clicking the empty leading cell at row 0, Tk column `#1`
of February 2023 (a month starting on a Wednesday, a later weekday than the
Sunday heading the row) leaves the state unchanged. -/
theorem c8_pressed_no_selection_witness :
    pressed ⟨⟨2023, 2, 1⟩, none⟩ (some 0) (some 1) true = ⟨⟨2023, 2, 1⟩, none⟩ :=
  c8_pressed_no_selection ⟨⟨2023, 2, 1⟩, none⟩ (some 0) (some 1) true
    (Or.inr (Or.inr (Or.inr ⟨0, 1, rfl, rfl, by decide⟩)))

/-- C1, amended.  The selection accessor returns nothing after construction
(until a valid click), but month navigation does not clear the stored
selection: whenever `_next_month` or `_prev_month` completes, the stored
selection of the resulting state equals that of the starting state, so
after a month change the accessor combines the stored day with the new
displayed (year, month) — returning that date when it is valid and raising
`ValueError` when it is not — rather than returning nothing. -/
theorem c1_selection_preserved (y m : Nat) (st0 st st2 : CalSt)
    (h0 : init_cal y m = some st0)
    (h : next_month st = some st2 ∨ prev_month st = some st2) :
    selection st0 = .ok none ∧ st2.sel = st.sel := by
  constructor
  · unfold init_cal at h0
    cases hmk : mk_datetime y m 1 with
    | none => rw [hmk] at h0; simp at h0
    | some d =>
      rw [hmk] at h0
      simp only [Option.map_some'] at h0
      injection h0 with h0'
      subst h0'
      rfl
  · rcases h with h | h
    · unfold next_month at h
      cases had : addDays (daysInMonth st.date.year st.date.month + 1) st.date with
      | none => rw [had] at h; simp at h
      | some d =>
        rw [had] at h
        simp only [Option.map_some'] at h
        injection h with h'
        subst h'
        rfl
    · unfold prev_month at h
      cases had : prevDay st.date with
      | none => rw [had] at h; simp at h
      | some d =>
        rw [had] at h
        simp only [Option.map_some'] at h
        injection h with h'
        subst h'
        rfl

/-- C1, witness: a concrete construction (January 2023) whose accessor
returns nothing, and a concrete `_next_month` step (January to February
2023 with stored day 5) across which the stored selection is preserved. -/
theorem c1_selection_preserved_witness :
    selection ⟨⟨2023, 1, 1⟩, none⟩ = .ok none ∧
    (⟨⟨2023, 2, 1⟩, some 5⟩ : CalSt).sel = (⟨⟨2023, 1, 1⟩, some 5⟩ : CalSt).sel :=
  c1_selection_preserved 2023 1 ⟨⟨2023, 1, 1⟩, none⟩ ⟨⟨2023, 1, 1⟩, some 5⟩
    ⟨⟨2023, 2, 1⟩, some 5⟩ rfl (Or.inl rfl)

theorem truthy_iff {α : Type} (l : Option (List α)) :
    truthy l = true ↔ ∃ xs, l = some xs ∧ xs ≠ [] := by
  cases l with
  | none => simp [truthy]
  | some xs => simp [truthy, List.isEmpty_iff]

theorem kv_cond_iff {α : Type} (k : Nat) (l : Option (List α)) :
    (truthy l = true ∧ k ≠ (l.getD []).length) ↔
    (∃ xs, l = some xs ∧ xs ≠ [] ∧ k ≠ xs.length) := by
  cases l with
  | none => simp [truthy]
  | some xs => simp [truthy, List.isEmpty_iff, and_assoc]

/-- C9, amended.  Construction raises an invalid-argument error if and only
if a supplied parallel input list that is non-empty has a mismatched
length: `Grid.__init__` raises `ValueError` iff a non-empty `headers` list
differs in length from `num_of_columns`, and `KeyValueEntry.__init__`
raises iff a non-empty `defaults`, `unit_labels` or `enables` list differs
in length from `keys`; an explicitly supplied empty list is treated like an
absent argument by the Python truthiness test (see the counterexample), and
no retry or recovery is attempted — the error propagates. -/
theorem c9_validation_iff (num_of_columns : Nat) (headers : Option (List String))
    (keys : List String) (defaults unit_labels : Option (List String))
    (enables : Option (List Bool)) :
    (grid_init_check num_of_columns headers ≠ .ok () ↔
      ∃ hs, headers = some hs ∧ hs ≠ [] ∧ hs.length ≠ num_of_columns) ∧
    (kv_init_check keys defaults unit_labels enables ≠ .ok () ↔
      ((∃ ds, defaults = some ds ∧ ds ≠ [] ∧ keys.length ≠ ds.length) ∨
       (∃ us, unit_labels = some us ∧ us ≠ [] ∧ keys.length ≠ us.length) ∨
       (∃ es, enables = some es ∧ es ≠ [] ∧ keys.length ≠ es.length))) := by
  constructor
  · unfold grid_init_check
    split_ifs with h
    · apply iff_of_true
      · simp
      · obtain ⟨xs, hxs, hne⟩ := (truthy_iff headers).mp h.1
        refine ⟨xs, hxs, hne, ?_⟩
        have := h.2
        rw [hxs] at this
        simpa using this
    · apply iff_of_false
      · simp
      · rintro ⟨xs, hxs, hne, hlen⟩
        exact h ⟨(truthy_iff headers).mpr ⟨xs, hxs, hne⟩, by rw [hxs]; simpa using hlen⟩
  · unfold kv_init_check
    split_ifs with h1 h2 h3
    · exact iff_of_true (by simp) (Or.inl ((kv_cond_iff _ _).mp h1))
    · exact iff_of_true (by simp) (Or.inr (Or.inl ((kv_cond_iff _ _).mp h2)))
    · exact iff_of_true (by simp) (Or.inr (Or.inr ((kv_cond_iff _ _).mp h3)))
    · apply iff_of_false
      · simp
      · rintro (hc | hc | hc)
        · exact h1 ((kv_cond_iff _ _).mpr hc)
        · exact h2 ((kv_cond_iff _ _).mpr hc)
        · exact h3 ((kv_cond_iff _ _).mpr hc)

end TkTools
